import Mathlib

/-!
Formal Shoes Store backend: verification of the order-pricing and
authentication core.

Shallow embedding of `src/main.py` (with the storage schemas of
`src/schemas.py`).  Money amounts are modelled as rationals (`ℚ`); the
document store is modelled as in the spec's external-interface section:
a list of documents per collection with find/insert.  Components whose
code lives in third-party libraries (bcrypt hashing via passlib, JWT
encoding via jose, BSON ObjectId parsing) are modelled from the spec's
description of those collaborators; each such definition carries a doc
comment saying so.
-/

/-- Python's `round(x, 2)`: round to 2 decimal places, ties to even
(banker's rounding, the semantics of the Python builtin). -/
def round2 (q : ℚ) : ℚ :=
  let c : ℚ := q * 100
  let f : ℤ := ⌊c⌋
  let r : ℚ := c - (f : ℚ)
  let n : ℤ :=
    if r < 1 / 2 then f
    else if 1 / 2 < r then f + 1
    else if f % 2 = 0 then f else f + 1
  (n : ℚ) / 100

/-- Modelled from the spec: a catalog key is well formed when it parses as a
BSON ObjectId, i.e. a 24-character hexadecimal string (`bson.ObjectId` is a
third-party collaborator, not in `src/`).  `ObjectId(s)` in the code raises
exactly when this returns `false`. -/
def validObjectId (s : String) : Bool :=
  s.length = 24 && s.toList.all (fun c => c.isDigit || (Char.ofNat 97 ≤ c && c ≤ Char.ofNat 102) || (Char.ofNat 65 ≤ c && c ≤ Char.ofNat 70))

/-- A stored catalog document (`shoe` collection).  Fields that the code
reads with `doc.get(...)` are `Option`s, since a Mongo document may lack
them; `_id` is kept as its hex string. -/
structure ShoeDoc where
  id : String
  title : Option String
  price : Option ℚ
  images : List String
deriving Repr, DecidableEq

/-- A stored user document (`user` collection). -/
structure UserDoc where
  id : String
  name : Option String
  email : Option String
  password_hash : Option String
deriving Repr, DecidableEq

/-- `db["shoe"].find_one({"_id": ObjectId(pid)})`: first catalog document
with the given id, if any. -/
def findShoe (catalog : List ShoeDoc) (pid : String) : Option ShoeDoc :=
  catalog.find? (fun d => d.id == pid)

/-- `db["user"].find_one({"email": e})`. -/
def findUserByEmail (users : List UserDoc) (e : String) : Option UserDoc :=
  users.find? (fun u => u.email == some e)

/-- `db["user"].find_one({"_id": ObjectId(uid)})`. -/
def findUserById (users : List UserDoc) (uid : String) : Option UserDoc :=
  users.find? (fun u => u.id == uid)

/-- Outcome of an endpoint call: a normal HTTP error response
(`HTTPException(status, detail)`) or an exception that no handler in the
embedded code catches (surfaced by the framework as a 500). -/
inductive Failure where
  | http (status : Nat) (detail : String)
  | unhandled
deriving Repr, DecidableEq

instance {ε α : Type} [DecidableEq ε] [DecidableEq α] : DecidableEq (Except ε α) :=
  fun a b =>
    match a, b with
    | .ok x, .ok y =>
      if h : x = y then .isTrue (by rw [h]) else .isFalse (by intro hc; cases hc; exact h rfl)
    | .error x, .error y =>
      if h : x = y then .isTrue (by rw [h]) else .isFalse (by intro hc; cases hc; exact h rfl)
    | .ok _, .error _ => .isFalse (by intro hc; cases hc)
    | .error _, .ok _ => .isFalse (by intro hc; cases hc)

/-- Python's `s.lower()` on the ASCII strings this code lowercases:
charwise lowercase mapping. -/
def pyLower (s : String) : String := String.mk (s.data.map Char.toLower)

/-- Python's `a or b` on an optional string: `a` unless it is falsy
(`None` or the empty string), else `b`. -/
def pyOr (a b : Option String) : Option String :=
  match a with
  | some s => if s = "" then b else some s
  | none => b

/-! ## Credential Hasher -/

/-- Modelled from the spec: the abstract digest of the Credential Hasher
(§4.1) — the password re-hashed with the stored salt and cost.  The hashing
library (passlib/bcrypt) is not in `src/`. -/
def hashDigest (salt cost password : String) : String :=
  salt ++ "|" ++ cost ++ "|" ++ password

/-- Splits a character list at each dollar sign (character 36), the field
separator of the modelled hash format. -/
def splitHashFields (cs : List Char) : List (List Char) :=
  match cs with
  | [] => [[]]
  | c :: rest =>
    if c = Char.ofNat 36 then [] :: splitHashFields rest
    else
      match splitHashFields rest with
      | [] => [[c]]
      | g :: gs => (c :: g) :: gs

/-- Modelled from the spec: well-formedness of a stored hash string.  The
hash output encodes algorithm, cost and salt (§4.1); a string parses iff it
has the shape `$2b$cost$salt$digest`. -/
def parseHash (s : String) : Option (String × String × String) :=
  match splitHashFields s.data with
  | [g0, g1, cost, salt, digest] =>
    if String.mk g0 = "" ∧ String.mk g1 = "2b" then
      some (String.mk cost, String.mk salt, String.mk digest)
    else none
  | _ => none

/-- `hash_password` (src/main.py line 35), delegating to the modelled
hasher: salted slow hash whose output encodes salt and cost.  The salt is
fixed here; randomness of the salt plays no role in any claim. -/
def hash_password (password : String) : String :=
  "$2b$12$s$" ++ hashDigest "s" "12" password

/-- `verify_password` (src/main.py line 39), delegating to the modelled
hasher contract (§4.1): true iff the password re-hashes with the stored
salt/cost to the stored digest; total, and false on any hash string that
does not parse. -/
def verify_password (plain hashed : String) : Bool :=
  match parseHash hashed with
  | some (cost, salt, digest) => digest == hashDigest salt cost plain
  | none => false

/-! ## Token Service -/

/-- Decoded JWT payload: the claims the code reads.  `exp` is an absolute
expiry timestamp. -/
structure TokenPayload where
  sub : Option String
  email : Option String
  exp : Nat
deriving Repr, DecidableEq

/-- Modelled from the spec: a session token string — either a payload signed
with some key, or a string that is not a JWT at all (the jose library is
not in `src/`).  A forged `signed` token with the server's key cannot be
produced without the key, which the signature model captures by recording
the signing key. -/
inductive Jwt where
  | signed (payload : TokenPayload) (key : String)
  | garbage (raw : String)
deriving Repr, DecidableEq

inductive JwtError where
  | invalidSignature
  | expired
  | malformedToken
deriving Repr, DecidableEq

/-- `SECRET_KEY` (src/main.py line 27, default value). -/
def SECRET_KEY : String := "dev-secret-please-change"

/-- `ACCESS_TOKEN_EXPIRE_MINUTES` default (src/main.py line 29). -/
def ACCESS_TOKEN_EXPIRE_MINUTES : Nat := 60

/-- Modelled from the spec: Token Service `validate` (§4.2), the behavior of
`jwt.decode(token, key, ...)`: `InvalidSignature` when the signature does
not verify, `Expired` when current time ≥ payload expiry, `Malformed` when
the payload cannot be parsed. -/
def jwtDecode (tok : Jwt) (key : String) (now : Nat) : Except JwtError TokenPayload :=
  match tok with
  | .garbage _ => .error .malformedToken
  | .signed p k =>
    if k ≠ key then .error .invalidSignature
    else if p.exp ≤ now then .error .expired
    else .ok p

/-- `create_access_token` (src/main.py line 43): payload carries the data
(`sub`, `email`) plus `exp = now + ttl`, signed with `SECRET_KEY`. -/
def create_access_token (sub : String) (email : Option String) (now ttl : Nat) : Jwt :=
  .signed ⟨some sub, email, now + ttl⟩ SECRET_KEY

/-! ## Auth Gateway -/

/-- `RegisterRequest` (src/main.py line 55). -/
structure RegisterRequest where
  name : String
  email : String
  password : String
deriving Repr, DecidableEq

/-- `LoginRequest` (src/main.py line 61). -/
structure LoginRequest where
  email : String
  password : String
deriving Repr, DecidableEq

/-- `UserPublic` (src/main.py line 66). -/
structure UserPublic where
  id : String
  name : String
  email : String
deriving Repr, DecidableEq

/-- `register_user` (src/main.py lines 122-137).  Returns the response
together with the updated `user` collection; `newId` stands for the id the
store generates on insert.  On the duplicate-email error path nothing is
inserted. -/
def register_user (users : List UserDoc) (payload : RegisterRequest) (newId : String) :
    Except Failure UserPublic × List UserDoc :=
  match findUserByEmail users (pyLower payload.email) with
  | some _ => (.error (.http 400 "Email already registered"), users)
  | none =>
    let doc : UserDoc :=
      { id := newId
        name := some payload.name
        email := some (pyLower payload.email)
        password_hash := some (hash_password payload.password) }
    (.ok ⟨newId, payload.name, payload.email⟩, users ++ [doc])

/-- `login_user` (src/main.py lines 140-150): look the credential up by
lowercased email; fail 401 "Invalid credentials" when the lookup fails or
`verify_password` (against `user.get("password_hash", "")`) returns false;
otherwise issue a token for the user's id and email. -/
def login_user (users : List UserDoc) (payload : LoginRequest) (now : Nat) :
    Except Failure Jwt :=
  match findUserByEmail users (pyLower payload.email) with
  | none => .error (.http 401 "Invalid credentials")
  | some user =>
    if ¬ verify_password payload.password (user.password_hash.getD "") then
      .error (.http 401 "Invalid credentials")
    else
      .ok (create_access_token user.id user.email now (ACCESS_TOKEN_EXPIRE_MINUTES * 60))

/-- The bearer credentials `HTTPBearer(auto_error=False)` hands to
`get_current_user`: `none` when no Authorization header was supplied. -/
structure BearerCredentials where
  scheme : String
  credentials : Jwt
deriving Repr, DecidableEq

/-- `get_current_user` (src/main.py lines 153-167).  The whole body runs in
a `try` whose sole handler catches `JWTError`; `HTTPException`s raised
inside propagate unchanged, while the `ObjectId(user_id)` call on a decoded
subject that is not a well-formed ObjectId raises `bson.InvalidId`, which
nothing catches (`Failure.unhandled`). -/
def get_current_user (users : List UserDoc) (credentials : Option BearerCredentials)
    (now : Nat) : Except Failure UserDoc :=
  match credentials with
  | none => .error (.http 401 "Not authenticated")
  | some c =>
    if pyLower c.scheme ≠ "bearer" then .error (.http 401 "Not authenticated")
    else
      match jwtDecode c.credentials SECRET_KEY now with
      | .error _ => .error (.http 401 "Invalid token")
      | .ok payload =>
        match payload.sub with
        | none => .error (.http 401 "Invalid token payload")
        | some uid =>
          if uid = "" then .error (.http 401 "Invalid token payload")
          else if ¬ validObjectId uid then .error .unhandled
          else
            match findUserById users uid with
            | none => .error (.http 401 "User not found")
            | some user => .ok user

/-! ## Catalog endpoint -/

/-- The body of `get_shoe`'s `try` block (src/main.py lines 252-256):
either the document, or the exception the block raises — the
`bson.InvalidId` from `ObjectId(shoe_id)` on a malformed id, or the
`HTTPException(404, "Shoe not found")` raised when no document matches. -/
inductive GetShoeExn where
  | invalidBsonId
  | http (status : Nat) (detail : String)
deriving Repr, DecidableEq

def get_shoe_try_block (catalog : List ShoeDoc) (shoe_id : String) :
    Except GetShoeExn ShoeDoc :=
  if validObjectId shoe_id then
    match findShoe catalog shoe_id with
    | none => .error (.http 404 "Shoe not found")
    | some d => .ok d
  else .error .invalidBsonId

/-- `get_shoe` (src/main.py lines 250-258): the `except Exception` handler
catches every exception the `try` block raises — including the
`HTTPException(404)` itself, since `HTTPException` derives from
`Exception` — and answers 400 "Invalid ID". -/
def get_shoe (catalog : List ShoeDoc) (shoe_id : String) : Except Failure ShoeDoc :=
  match get_shoe_try_block catalog shoe_id with
  | .ok d => .ok d
  | .error _ => .error (.http 400 "Invalid ID")

/-! ## Order Pricing Engine -/

/-- `CartItem` (src/main.py lines 262-266): `quantity` is a plain Python
int with default 1 and no bound. -/
structure CartItem where
  product_id : String
  quantity : Int := 1
  size : Option Int := none
  color : Option String := none
deriving Repr, DecidableEq

/-- `CreateOrderRequest` (src/main.py lines 269-273). -/
structure CreateOrderRequest where
  items : List CartItem
  customer_name : Option String := none
  customer_email : Option String := none
  address : Option String := none
deriving Repr, DecidableEq

/-- A line item of the persisted order document (src/main.py lines 290-300). -/
structure OrderItemDoc where
  product_id : String
  title : Option String
  price : ℚ
  quantity : Int
  size : Option Int
  color : Option String
  image : Option String
deriving Repr, DecidableEq

/-- The persisted order document (src/main.py lines 304-314). -/
structure OrderDoc where
  items : List OrderItemDoc
  subtotal : ℚ
  shipping : ℚ
  total : ℚ
  customer_name : Option String
  customer_email : Option String
  address : Option String
  status : String
  user_id : String
deriving Repr, DecidableEq

/-- The per-item loop of `create_order` (src/main.py lines 281-300):
resolve each cart item against the catalog — `ObjectId(item.product_id)`
raising is answered with 400 "Invalid product id", a missing document with
404 "Product not found", and the first failure aborts — otherwise
accumulate `price * quantity` into the subtotal and snapshot the line. -/
def processItems (catalog : List ShoeDoc) : List CartItem →
    Except Failure (ℚ × List OrderItemDoc)
  | [] => .ok (0, [])
  | item :: rest =>
    if ¬ validObjectId item.product_id then
      .error (.http 400 "Invalid product id")
    else
      match findShoe catalog item.product_id with
      | none => .error (.http 404 "Product not found")
      | some doc =>
        let price : ℚ := doc.price.getD 0
        match processItems catalog rest with
        | .error e => .error e
        | .ok (sub, items) =>
          .ok (price * (item.quantity : ℚ) + sub,
               { product_id := item.product_id
                 title := doc.title
                 price := price
                 quantity := item.quantity
                 size := item.size
                 color := item.color
                 image := doc.images.head? } :: items)

/-- `create_order` (src/main.py lines 276-317), after the auth dependency
has resolved `user`.  Returns the response together with the updated
`order` collection: on any item-resolution failure the request aborts with
that error and nothing is inserted; on success the order document is built
(subtotal rounded at the end, flat 9.99 shipping waived from an accumulated
subtotal of 199, total rounded, contact fields defaulted with Python `or`)
and appended to the store. -/
def create_order (catalog : List ShoeDoc) (orders : List OrderDoc)
    (payload : CreateOrderRequest) (user : UserDoc) :
    Except Failure OrderDoc × List OrderDoc :=
  match processItems catalog payload.items with
  | .error e => (.error e, orders)
  | .ok (subtotal, order_items) =>
    let shipping : ℚ := if 199 ≤ subtotal then 0 else 999 / 100
    let total := round2 (subtotal + shipping)
    let order : OrderDoc :=
      { items := order_items
        subtotal := round2 subtotal
        shipping := shipping
        total := total
        customer_name := pyOr payload.customer_name user.name
        customer_email := pyOr payload.customer_email user.email
        address := payload.address
        status := "created"
        user_id := user.id }
    (.ok order, orders ++ [order])

/-! ## Spec-side pricing vocabulary and core lemmas -/

/-- A cart item resolves: its id is a well-formed catalog key and some
catalog item matches. -/
def resolvesItem (catalog : List ShoeDoc) (it : CartItem) : Prop :=
  validObjectId it.product_id = true ∧ (findShoe catalog it.product_id).isSome = true

instance (catalog : List ShoeDoc) (it : CartItem) : Decidable (resolvesItem catalog it) :=
  inferInstanceAs (Decidable (_ ∧ _))

/-- The catalog unit price a resolving item snapshots: the matching
document's `price` field, 0 when the field is absent. -/
def unitPrice (catalog : List ShoeDoc) (it : CartItem) : ℚ :=
  match findShoe catalog it.product_id with
  | some d => d.price.getD 0
  | none => 0

/-- Line total: catalog unit price times the item's quantity. -/
def lineTotal (catalog : List ShoeDoc) (it : CartItem) : ℚ :=
  unitPrice catalog it * (it.quantity : ℚ)

/-- The line-item snapshot a resolving cart item produces. -/
def snapItem (catalog : List ShoeDoc) (it : CartItem) : OrderItemDoc :=
  match findShoe catalog it.product_id with
  | some doc =>
    { product_id := it.product_id
      title := doc.title
      price := doc.price.getD 0
      quantity := it.quantity
      size := it.size
      color := it.color
      image := doc.images.head? }
  | none =>
    { product_id := it.product_id
      title := none
      price := 0
      quantity := it.quantity
      size := it.size
      color := it.color
      image := none }

/-- The error the resolution loop raises at a failing item: 400 for a
malformed id (checked first), otherwise 404 for a missing product. -/
def itemError (it : CartItem) : Failure :=
  if validObjectId it.product_id then .http 404 "Product not found"
  else .http 400 "Invalid product id"

lemma processItems_of_resolves (catalog : List ShoeDoc) :
    ∀ items : List CartItem, (∀ it ∈ items, resolvesItem catalog it) →
      processItems catalog items =
        .ok ((items.map (lineTotal catalog)).sum, items.map (snapItem catalog))
  | [], _ => rfl
  | item :: rest, h => by
    obtain ⟨hv, hs⟩ := h item (List.mem_cons_self item rest)
    obtain ⟨d, hd⟩ := Option.isSome_iff_exists.mp hs
    have ih := processItems_of_resolves catalog rest
      (fun it hit => h it (List.mem_cons_of_mem _ hit))
    simp [processItems, hv, hd, ih, snapItem, lineTotal, unitPrice]

lemma processItems_firstFail (catalog : List ShoeDoc) :
    ∀ (pre : List CartItem) (bad : CartItem) (post : List CartItem),
      (∀ it ∈ pre, resolvesItem catalog it) → ¬ resolvesItem catalog bad →
      processItems catalog (pre ++ bad :: post) = .error (itemError bad)
  | [], bad, post, _, hbad => by
    by_cases hv : validObjectId bad.product_id = true
    · have hs : findShoe catalog bad.product_id = none := by
        rcases hfs : findShoe catalog bad.product_id with _ | d
        · rfl
        · exact absurd ⟨hv, by simp [hfs]⟩ hbad
      simp [processItems, hv, hs, itemError]
    · simp [processItems, hv, itemError]
  | item :: pre, bad, post, hpre, hbad => by
    obtain ⟨hv, hs⟩ := hpre item (List.mem_cons_self item pre)
    obtain ⟨d, hd⟩ := Option.isSome_iff_exists.mp hs
    have ih := processItems_firstFail catalog pre bad post
      (fun it hit => hpre it (List.mem_cons_of_mem _ hit)) hbad
    simp [processItems, hv, hd, ih]

/-- Sum of the cart's line totals, before any rounding. -/
def cartSubtotal (catalog : List ShoeDoc) (items : List CartItem) : ℚ :=
  (items.map (lineTotal catalog)).sum

lemma snapItem_price (catalog : List ShoeDoc) (it : CartItem) :
    (snapItem catalog it).price = unitPrice catalog it := by
  unfold snapItem unitPrice
  rcases findShoe catalog it.product_id with _ | d <;> rfl

lemma snapItem_quantity (catalog : List ShoeDoc) (it : CartItem) :
    (snapItem catalog it).quantity = it.quantity := by
  unfold snapItem
  rcases findShoe catalog it.product_id with _ | d <;> rfl

/-- The order document `create_order` builds once every item has resolved. -/
def builtOrder (catalog : List ShoeDoc) (payload : CreateOrderRequest)
    (user : UserDoc) : OrderDoc :=
  let S := cartSubtotal catalog payload.items
  let ship : ℚ := if 199 ≤ S then 0 else 999 / 100
  { items := payload.items.map (snapItem catalog)
    subtotal := round2 S
    shipping := ship
    total := round2 (S + ship)
    customer_name := pyOr payload.customer_name user.name
    customer_email := pyOr payload.customer_email user.email
    address := payload.address
    status := "created"
    user_id := user.id }

lemma create_order_resolved (catalog : List ShoeDoc) (orders : List OrderDoc)
    (payload : CreateOrderRequest) (user : UserDoc)
    (h : ∀ it ∈ payload.items, resolvesItem catalog it) :
    create_order catalog orders payload user =
      (.ok (builtOrder catalog payload user),
       orders ++ [builtOrder catalog payload user]) := by
  unfold create_order builtOrder
  rw [processItems_of_resolves catalog payload.items h]
  rfl

/-! ## Sample store contents used by witnesses and counterexamples -/

def pidA : String := "aaaaaaaaaaaaaaaaaaaaaaaa"
def pidB : String := "bbbbbbbbbbbbbbbbbbbbbbbb"
def pidC : String := "cccccccccccccccccccccccc"
def absentPid : String := "ffffffffffffffffffffffff"
def badPid : String := "not-an-objectid"

def shoeA : ShoeDoc := ⟨pidA, some "Oxford Classic", some 100, ["imgA"]⟩
def shoeB : ShoeDoc := ⟨pidB, some "Derby Modern", some 50, ["imgB"]⟩
def shoeNoPrice : ShoeDoc := ⟨pidC, some "Mystery Loafer", none, []⟩
def sampleCatalog : List ShoeDoc := [shoeA, shoeB, shoeNoPrice]

def alice : UserDoc :=
  ⟨"dddddddddddddddddddddddd", some "Alice", some "alice@example.com",
   some (hash_password "pw")⟩

def req1 : CreateOrderRequest := { items := [⟨pidA, 1, none, none⟩, ⟨pidB, 2, none, none⟩] }

/-! ## Claims -/

/-- C1: for every cart whose items all resolve against the catalog,
`create_order` snapshots each line's price as the catalog unit price and
its quantity as the item's quantity (so each line total is unit price ×
quantity), computes the persisted subtotal by rounding the accumulated sum
of line totals to 2 decimal places only at the end (never per line),
charges shipping 0 when the accumulated subtotal is ≥ 199 and 9.99
otherwise, and sets total = round(subtotal + shipping, 2). -/
theorem C1_order_pricing (catalog : List ShoeDoc) (orders : List OrderDoc)
    (payload : CreateOrderRequest) (user : UserDoc)
    (h : ∀ it ∈ payload.items, resolvesItem catalog it) :
    ∃ order : OrderDoc, ∃ rest : List OrderDoc,
      create_order catalog orders payload user = (.ok order, rest) ∧
      order.items.map (fun li => li.price) = payload.items.map (unitPrice catalog) ∧
      order.items.map (fun li => li.quantity) = payload.items.map (fun it => it.quantity) ∧
      order.subtotal = round2 (cartSubtotal catalog payload.items) ∧
      order.shipping = (if 199 ≤ cartSubtotal catalog payload.items then 0 else 999 / 100) ∧
      order.total = round2 (cartSubtotal catalog payload.items + order.shipping) := by
  refine ⟨builtOrder catalog payload user, orders ++ [builtOrder catalog payload user],
    create_order_resolved catalog orders payload user h, ?_, ?_, rfl, rfl, rfl⟩
  · simp [builtOrder, snapItem_price]
  · simp [builtOrder, snapItem_quantity]

/-- Witness for C1 at the spec's own scenario: a cart of one item at price
100 (quantity 1) and one at price 50 (quantity 2) resolves, and the order
comes out with subtotal 200, shipping 0 (the ≥ 199 threshold is met) and
total 200. -/
theorem C1_order_pricing_witness :
    (∀ it ∈ req1.items, resolvesItem sampleCatalog it) ∧
    ∃ order : OrderDoc, ∃ rest : List OrderDoc,
      create_order sampleCatalog [] req1 alice = (.ok order, rest) ∧
      order.subtotal = 200 ∧ order.shipping = 0 ∧ order.total = 200 := by
  have hres : ∀ it ∈ req1.items, resolvesItem sampleCatalog it := by decide
  have hA : findShoe sampleCatalog pidA = some shoeA := rfl
  have hB : findShoe sampleCatalog pidB = some shoeB := rfl
  have hsum : cartSubtotal sampleCatalog req1.items = 200 := by
    norm_num [cartSubtotal, req1, lineTotal, unitPrice, hA, hB, shoeA, shoeB]
  obtain ⟨order, rest, heq, _, _, hsub, hship, htot⟩ :=
    C1_order_pricing sampleCatalog [] req1 alice hres
  have hship' : order.shipping = 0 := by rw [hship, hsum]; norm_num
  refine ⟨hres, order, rest, heq, ?_, hship', ?_⟩
  · rw [hsub, hsum]; norm_num [round2]
  · rw [htot, hsum, hship']; norm_num [round2]

/-- C2: during `create_order`, catalog resolution is per-item and the first
failing item aborts the whole request — 400 "Invalid product id" when the
id is not a well-formed catalog key, 404 "Product not found" when no
catalog item matches — and on failure the `order` collection is left
exactly as it was (no partial order is persisted). -/
theorem C2_resolution_failure_aborts (catalog : List ShoeDoc) (orders : List OrderDoc)
    (payload : CreateOrderRequest) (user : UserDoc)
    (pre post : List CartItem) (bad : CartItem)
    (hsplit : payload.items = pre ++ bad :: post)
    (hpre : ∀ it ∈ pre, resolvesItem catalog it)
    (hbad : ¬ resolvesItem catalog bad) :
    create_order catalog orders payload user = (.error (itemError bad), orders) ∧
    (validObjectId bad.product_id = false →
      itemError bad = .http 400 "Invalid product id") ∧
    (validObjectId bad.product_id = true →
      itemError bad = .http 404 "Product not found") := by
  refine ⟨?_, ?_, ?_⟩
  · unfold create_order
    rw [hsplit, processItems_firstFail catalog pre bad post hpre hbad]
  · intro hv; simp [itemError, hv]
  · intro hv; simp [itemError, hv]

/-- Witness for C2 at the spec's own scenario: a cart whose second item
references a well-formed but nonexistent product id fails with 404
"Product not found" and persists nothing, the store staying empty. -/
theorem C2_resolution_failure_aborts_witness :
    ([⟨pidA, 1, none, none⟩] : List CartItem).all (fun it => decide (resolvesItem sampleCatalog it)) = true ∧
    ¬ resolvesItem sampleCatalog ⟨absentPid, 1, none, none⟩ ∧
    create_order sampleCatalog []
        { items := [⟨pidA, 1, none, none⟩, ⟨absentPid, 1, none, none⟩] } alice =
      (.error (itemError ⟨absentPid, 1, none, none⟩), []) ∧
    itemError ⟨absentPid, 1, none, none⟩ = .http 404 "Product not found" := by
  have h := C2_resolution_failure_aborts sampleCatalog []
    { items := [⟨pidA, 1, none, none⟩, ⟨absentPid, 1, none, none⟩] } alice
    [⟨pidA, 1, none, none⟩] [] ⟨absentPid, 1, none, none⟩ rfl
    (by decide) (by decide)
  exact ⟨by decide, by decide, h.1, h.2.2 (by decide)⟩

/-- C3: for every request carrying a bearer token, identity resolution in
`get_current_user` fails with a 401 Unauthenticated response — and with no
other kind of error — whenever the token's signature does not verify, the
token is expired, the payload cannot be parsed, or the decoded payload
lacks a (non-empty) subject claim. -/
theorem C3_bad_token_unauthenticated (users : List UserDoc) (now : Nat) (tok : Jwt)
    (h : (∃ e, jwtDecode tok SECRET_KEY now = .error e) ∨
         (∃ p, jwtDecode tok SECRET_KEY now = .ok p ∧
           (p.sub = none ∨ p.sub = some ""))) :
    ∃ detail, get_current_user users (some ⟨"Bearer", tok⟩) now =
      .error (.http 401 detail) := by
  have hl : pyLower "Bearer" = "bearer" := by decide
  rcases h with ⟨e, he⟩ | ⟨p, hp, hsub⟩
  · exact ⟨"Invalid token", by simp [get_current_user, hl, he]⟩
  · rcases hsub with hn | he
    · exact ⟨"Invalid token payload", by simp [get_current_user, hl, hp, hn]⟩
    · exact ⟨"Invalid token payload", by simp [get_current_user, hl, hp, he]⟩

/-- Witness for C3: a string that is not a JWT at all fails to decode, and
identity resolution answers 401. -/
theorem C3_bad_token_unauthenticated_witness :
    (∃ e, jwtDecode (.garbage "junk") SECRET_KEY 0 = .error e) ∧
    ∃ detail, get_current_user [alice] (some ⟨"Bearer", .garbage "junk"⟩) 0 =
      .error (.http 401 detail) :=
  ⟨⟨.malformedToken, rfl⟩,
   C3_bad_token_unauthenticated [alice] 0 (.garbage "junk")
     (Or.inl ⟨.malformedToken, rfl⟩)⟩

/-- C4 fails on the code: the claim (and the spec) say a well-formed id
matching no catalog item makes `get_shoe` answer 404 NotFound, and only a
malformed id answers 400 InvalidId.  In the code the
`raise HTTPException(404, "Shoe not found")` sits inside a `try` whose
`except Exception` clause catches it — `HTTPException` derives from
`Exception` — so a well-formed id with no match is answered 400
"Invalid ID": the code contradicts its own explicit 404 raise.  This
theorem evaluates the code at such an input: the id is well formed, the
catalog has no match, yet the result is the 400 error. -/
theorem C4_get_shoe_not_found_eval :
    validObjectId "0123456789abcdef01234567" = true ∧
    findShoe sampleCatalog "0123456789abcdef01234567" = none ∧
    get_shoe sampleCatalog "0123456789abcdef01234567" = .error (.http 400 "Invalid ID") ∧
    get_shoe sampleCatalog "0123456789abcdef01234567" ≠ .error (.http 404 "Shoe not found") := by
  refine ⟨by decide, by decide, by decide, by decide⟩

/-- C5: `verify_password` is a total boolean function (it cannot throw, by
its Lean type) and returns false whenever the stored hash string does not
parse; consequently a login whose credential record carries no stored hash
— the code then verifies against `""`, which does not parse — fails with
the generic 401 "Invalid credentials" rather than an exception. -/
theorem C5_verify_never_throws (plain hashed : String) (users : List UserDoc)
    (payload : LoginRequest) (u : UserDoc) (now : Nat)
    (hmal : parseHash hashed = none)
    (hfind : findUserByEmail users (pyLower payload.email) = some u)
    (hnone : u.password_hash = none) :
    verify_password plain hashed = false ∧
    login_user users payload now = .error (.http 401 "Invalid credentials") := by
  constructor
  · simp [verify_password, hmal]
  · have hempty : verify_password payload.password "" = false := rfl
    simp [login_user, hfind, hnone, hempty]

/-- Witness for C5: a malformed hash string verifies to false, and login
for a stored user whose document lacks `password_hash` answers the generic
401. -/
theorem C5_verify_never_throws_witness :
    parseHash "totally-malformed" = none ∧
    (let hashless : UserDoc := ⟨"eeeeeeeeeeeeeeeeeeeeeeee", some "Eve", some "eve@example.com", none⟩
     verify_password "pw" "totally-malformed" = false ∧
     login_user [hashless] ⟨"eve@example.com", "pw"⟩ 0 =
       .error (.http 401 "Invalid credentials")) :=
  ⟨by decide,
   C5_verify_never_throws "pw" "totally-malformed"
     [⟨"eeeeeeeeeeeeeeeeeeeeeeee", some "Eve", some "eve@example.com", none⟩]
     ⟨"eve@example.com", "pw"⟩
     ⟨"eeeeeeeeeeeeeeeeeeeeeeee", some "Eve", some "eve@example.com", none⟩ 0
     (by decide) (by decide) rfl⟩

/-- C6 fails on the code: `CartItem.quantity` carries no lower bound (the
repo's own `OrderItem` schema declares `quantity ≥ 1`, but `create_order`
builds and inserts the order as a raw dict, bypassing that schema), so a
cart item with quantity 0 is accepted and the order is persisted with a
zero-quantity line.  This theorem evaluates the code at such an input: the
request succeeds and the stored order's sole line item has quantity 0. -/
theorem C6_zero_quantity_accepted_eval :
    ((create_order sampleCatalog [] { items := [⟨pidA, 0, none, none⟩] } alice).1.map
        (fun o => o.items.map (fun li => li.quantity)) = .ok [0]) ∧
    ((create_order sampleCatalog [] { items := [⟨pidA, 0, none, none⟩] } alice).2.map
        (fun o => o.items.map (fun li => li.quantity)) = [[0]]) := by
  refine ⟨by decide, by decide⟩

/-- C7: registration enforces case-insensitive email uniqueness — when no
credential with the first request's normalized email exists, that request
succeeds, and a second request whose email is equal after lowercasing
fails with 400 "Email already registered" and leaves the `user` collection
exactly as the first call left it (no new credential). -/
theorem C7_duplicate_email (users : List UserDoc) (p1 p2 : RegisterRequest)
    (id1 id2 : String)
    (hfresh : findUserByEmail users (pyLower p1.email) = none)
    (heq : pyLower p1.email = pyLower p2.email) :
    (∃ pub, (register_user users p1 id1).1 = .ok pub) ∧
    register_user (register_user users p1 id1).2 p2 id2 =
      (.error (.http 400 "Email already registered"), (register_user users p1 id1).2) := by
  have h1 : register_user users p1 id1 =
      (.ok ⟨id1, p1.name, p1.email⟩,
       users ++ [⟨id1, some p1.name, some (pyLower p1.email), some (hash_password p1.password)⟩]) := by
    unfold register_user
    rw [hfresh]
  have hfind2 :
      findUserByEmail
        (users ++ [⟨id1, some p1.name, some (pyLower p1.email), some (hash_password p1.password)⟩])
        (pyLower p2.email) =
      some ⟨id1, some p1.name, some (pyLower p1.email), some (hash_password p1.password)⟩ := by
    unfold findUserByEmail at hfresh ⊢
    rw [List.find?_append, ← heq, hfresh]
    simp [List.find?]
  refine ⟨⟨⟨id1, p1.name, p1.email⟩, by rw [h1]⟩, ?_⟩
  rw [h1]
  unfold register_user
  rw [hfind2]

/-- Witness for C7: registering bob@example.com into an empty store
succeeds, and registering BOB@Example.com afterwards fails with the
duplicate-email error without adding a credential. -/
theorem C7_duplicate_email_witness :
    findUserByEmail [] (pyLower "bob@example.com") = none ∧
    pyLower "bob@example.com" = pyLower "BOB@Example.com" ∧
    (∃ pub, (register_user [] ⟨"Bob", "bob@example.com", "pw1"⟩ "b1").1 = .ok pub) ∧
    register_user (register_user [] ⟨"Bob", "bob@example.com", "pw1"⟩ "b1").2
        ⟨"Bobby", "BOB@Example.com", "pw2"⟩ "b2" =
      (.error (.http 400 "Email already registered"),
       (register_user [] ⟨"Bob", "bob@example.com", "pw1"⟩ "b1").2) := by
  have h := C7_duplicate_email [] ⟨"Bob", "bob@example.com", "pw1"⟩
    ⟨"Bobby", "BOB@Example.com", "pw2"⟩ "b1" "b2" (by decide) (by decide)
  exact ⟨by decide, by decide, h.1, h.2⟩

/-- C8: validating a token issued for (subject, email) with time-to-live
ttl returns the same subject and email at any time before issue_time + ttl,
and returns Expired at any time from issue_time + ttl on (the spec expires
a token when current time ≥ expiry, which subsumes every time that has
passed issue_time + ttl). -/
theorem C8_token_roundtrip (sub email : String) (issueTime ttl t : Nat) :
    (t < issueTime + ttl →
      jwtDecode (create_access_token sub (some email) issueTime ttl) SECRET_KEY t =
        .ok ⟨some sub, some email, issueTime + ttl⟩) ∧
    (issueTime + ttl ≤ t →
      jwtDecode (create_access_token sub (some email) issueTime ttl) SECRET_KEY t =
        .error .expired) := by
  constructor
  · intro h
    simp [create_access_token, jwtDecode, Nat.not_le.mpr h]
  · intro h
    simp [create_access_token, jwtDecode, h]

/-- Witness for C8: a token issued at time 0 with ttl 60 decodes to its
subject and email at time 5 and is Expired at time 61. -/
theorem C8_token_roundtrip_witness :
    (5 < 0 + 60 ∧
      jwtDecode (create_access_token "u1" (some "u@example.com") 0 60) SECRET_KEY 5 =
        .ok ⟨some "u1", some "u@example.com", 0 + 60⟩) ∧
    (0 + 60 ≤ 61 ∧
      jwtDecode (create_access_token "u1" (some "u@example.com") 0 60) SECRET_KEY 61 =
        .error .expired) :=
  ⟨⟨by decide, (C8_token_roundtrip "u1" "u@example.com" 0 60 5).1 (by decide)⟩,
   ⟨by decide, (C8_token_roundtrip "u1" "u@example.com" 0 60 61).2 (by decide)⟩⟩

lemma create_order_contact_fields (catalog : List ShoeDoc) (orders : List OrderDoc)
    (payload : CreateOrderRequest) (user : UserDoc) (order : OrderDoc)
    (rest : List OrderDoc)
    (hsucc : create_order catalog orders payload user = (.ok order, rest)) :
    order.customer_name = pyOr payload.customer_name user.name ∧
    order.customer_email = pyOr payload.customer_email user.email := by
  unfold create_order at hsucc
  rcases hpi : processItems catalog payload.items with e | pr
  · rw [hpi] at hsucc
    simp at hsucc
  · rw [hpi] at hsucc
    obtain ⟨S, its⟩ := pr
    simp only [Prod.mk.injEq, Except.ok.injEq] at hsucc
    obtain ⟨ho, _⟩ := hsucc
    rw [← ho]
    exact ⟨rfl, rfl⟩

/-- C9 as stated is false on the code: the contact overrides are applied
with Python `or`, which treats a supplied empty-string override as absent.
Here the request supplies the override customer_name = "" and the code
persists the identity's stored name "Alice" instead of the supplied
override. -/
theorem C9_empty_override_counterexample :
    ((create_order sampleCatalog []
        { items := [⟨pidA, 1, none, none⟩], customer_name := some "" } alice).1.map
      (fun o => o.customer_name) = .ok (some "Alice")) ∧
    ((create_order sampleCatalog []
        { items := [⟨pidA, 1, none, none⟩], customer_name := some "" } alice).1.map
      (fun o => o.customer_name) ≠ .ok (some "")) := by
  refine ⟨by decide, by decide⟩

/-- C9 amended: for every successful `create_order` call, the persisted
order's customer_name and customer_email equal the supplied override when
a non-empty override is supplied, and otherwise — the override absent or
the empty string — equal the authenticated identity's stored name and
email. -/
theorem C9_contact_defaults (catalog : List ShoeDoc) (orders : List OrderDoc)
    (payload : CreateOrderRequest) (user : UserDoc) (order : OrderDoc)
    (rest : List OrderDoc)
    (hsucc : create_order catalog orders payload user = (.ok order, rest)) :
    (∀ s, payload.customer_name = some s → s ≠ "" → order.customer_name = some s) ∧
    ((payload.customer_name = none ∨ payload.customer_name = some "") →
      order.customer_name = user.name) ∧
    (∀ s, payload.customer_email = some s → s ≠ "" → order.customer_email = some s) ∧
    ((payload.customer_email = none ∨ payload.customer_email = some "") →
      order.customer_email = user.email) := by
  obtain ⟨hn, he⟩ := create_order_contact_fields catalog orders payload user order rest hsucc
  refine ⟨?_, ?_, ?_, ?_⟩
  · intro s hs hne
    rw [hn, hs]
    simp [pyOr, hne]
  · rintro (hs | hs) <;> rw [hn, hs] <;> simp [pyOr]
  · intro s hs hne
    rw [he, hs]
    simp [pyOr, hne]
  · rintro (hs | hs) <;> rw [he, hs] <;> simp [pyOr]

/-- Witness for C9 amended: with override customer_name = "Bob" supplied
and no email override, the persisted order carries customer_name "Bob" and
the identity's stored email. -/
theorem C9_contact_defaults_witness :
    ∃ order : OrderDoc, ∃ rest : List OrderDoc,
      create_order sampleCatalog []
          { items := [⟨pidA, 1, none, none⟩], customer_name := some "Bob" } alice =
        (.ok order, rest) ∧
      order.customer_name = some "Bob" ∧
      order.customer_email = alice.email := by
  have h := create_order_resolved sampleCatalog []
    { items := [⟨pidA, 1, none, none⟩], customer_name := some "Bob" } alice (by decide)
  refine ⟨_, _, h, ?_, ?_⟩
  · exact (C9_contact_defaults _ _ _ _ _ _ h).1 "Bob" rfl (by decide)
  · exact (C9_contact_defaults _ _ _ _ _ _ h).2.2.2 (Or.inl rfl)

/-- C10: when a cart item resolves to a catalog document with no price
field, `create_order` does not fail — that line's snapshot price is 0, its
line total is 0 (so it contributes nothing to the subtotal, which is still
the rounded sum of all line totals), and the order is created. -/
theorem C10_missing_price_defaults_to_zero (catalog : List ShoeDoc)
    (orders : List OrderDoc) (payload : CreateOrderRequest) (user : UserDoc)
    (k : Nat) (it : CartItem) (doc : ShoeDoc)
    (h : ∀ x ∈ payload.items, resolvesItem catalog x)
    (hk : payload.items[k]? = some it)
    (hdoc : findShoe catalog it.product_id = some doc)
    (hnoprice : doc.price = none) :
    ∃ order : OrderDoc, ∃ rest : List OrderDoc,
      create_order catalog orders payload user = (.ok order, rest) ∧
      order.items[k]?.map (fun li => li.price) = some 0 ∧
      lineTotal catalog it = 0 ∧
      order.subtotal = round2 (cartSubtotal catalog payload.items) := by
  have hprice : unitPrice catalog it = 0 := by
    unfold unitPrice
    rw [hdoc]
    simp [hnoprice]
  refine ⟨builtOrder catalog payload user, orders ++ [builtOrder catalog payload user],
    create_order_resolved catalog orders payload user h, ?_, ?_, rfl⟩
  · show (payload.items.map (snapItem catalog))[k]?.map (fun li => li.price) = some 0
    rw [List.getElem?_map, hk]
    simp [snapItem_price, hprice]
  · rw [lineTotal, hprice, zero_mul]

/-- Witness for C10: a cart holding the priceless catalog item resolves,
the order is created, its line's price snapshot is 0 and the subtotal is
the rounded sum of line totals. -/
theorem C10_missing_price_defaults_to_zero_witness :
    (∀ x ∈ [(⟨pidC, 1, none, none⟩ : CartItem)], resolvesItem sampleCatalog x) ∧
    findShoe sampleCatalog pidC = some shoeNoPrice ∧
    shoeNoPrice.price = none ∧
    ∃ order : OrderDoc, ∃ rest : List OrderDoc,
      create_order sampleCatalog [] { items := [⟨pidC, 1, none, none⟩] } alice =
        (.ok order, rest) ∧
      order.items[0]?.map (fun li => li.price) = some 0 ∧
      lineTotal sampleCatalog ⟨pidC, 1, none, none⟩ = 0 ∧
      order.subtotal = round2 (cartSubtotal sampleCatalog [⟨pidC, 1, none, none⟩]) := by
  refine ⟨by decide, by decide, rfl, ?_⟩
  exact C10_missing_price_defaults_to_zero sampleCatalog []
    { items := [⟨pidC, 1, none, none⟩] } alice 0 ⟨pidC, 1, none, none⟩ shoeNoPrice
    (by decide) rfl (by decide) rfl
